import Mathlib

/-!
Verification of the per-camera WebRTC session engine of docker-wyze-bridge.

The development shallowly embeds `app/wyzebridge/webrtc_stream.py`
(class `WebRtcStream`) and `app/wyzebridge/kvs_signaling.py`
(class `KvsSignalingClient`).  Python object state becomes a Lean
structure, methods become pure functions threading that structure (and an
explicit filesystem model for the named pipes), and Python exceptions
become `Option`/explicit branch results exactly where the source wraps
code in `try`/`except`.
-/

namespace WyzeBridge

/-- Stream states, embedding class `StreamStatus` of `webrtc_stream.py`.
The Python values are integer constants; `statusCode` below recovers them. -/
inductive StreamStatus where
  | offline
  | stopping
  | disabled
  | stopped
  | connecting
  | connected
  | initializing
  deriving DecidableEq, Repr, Fintype

/-- The integer constant each state carries in the source
(`OFFLINE = -90`, `STOPPING = -1`, `DISABLED = 0`, `STOPPED = 1`,
`CONNECTING = 2`, `CONNECTED = 3`, `INITIALIZING = -2`). -/
def statusCode : StreamStatus → Int
  | .offline => -90
  | .stopping => -1
  | .disabled => 0
  | .stopped => 1
  | .connecting => 2
  | .connected => 3
  | .initializing => -2

/-- The fields of `WyzeStreamOptions` that `WebRtcStream` reads
(`options.reconnect`, `options.audio`, `options.bitrate`). -/
structure Options where
  reconnect : Bool
  audio : Bool
  bitrate : Nat
  deriving DecidableEq, Repr

/-- The fields of the camera record that `WebRtcStream` reads
(`camera.name_uri`, `camera.nickname`). -/
structure Camera where
  name_uri : String
  nickname : String
  deriving DecidableEq, Repr

/-- The mutable state of one `WebRtcStream` object (`__slots__`).
Handle-valued slots (`loop_thread`, `pc`, `signaling`, `ffmpeg_process`,
`_video_track`, `_audio_track`) are modelled by presence booleans;
the pipe-path slots keep their `Optional[str]` type. -/
structure Session where
  uri : String
  camera : Camera
  options : Options
  state : StreamStatus
  startTime : Nat
  motionTs : Nat
  reconnectCount : Nat
  stopEvent : Bool
  loopThread : Bool
  pc : Bool
  signaling : Bool
  ffmpegProcess : Bool
  videoPipe : Option String
  audioPipe : Option String
  videoTrack : Bool
  audioTrack : Bool
  deriving DecidableEq, Repr

/-- `WebRtcStream.__init__`: fresh session state. -/
def mkSession (camera : Camera) (options : Options) : Session where
  uri := camera.name_uri
  camera := camera
  options := options
  state := .stopped
  startTime := 0
  motionTs := 0
  reconnectCount := 0
  stopEvent := false
  loopThread := false
  pc := false
  signaling := false
  ffmpegProcess := false
  videoPipe := none
  audioPipe := none
  videoTrack := false
  audioTrack := false

/-- The filesystem as the set (list) of existing pipe paths. -/
abbrev FS := List String

/-- `os.remove`/absence: drop a path from the filesystem model. -/
def fsRemove (fs : FS) (p : String) : FS := fs.filter (fun q => q ≠ p)

/-- `WebRtcStream._cleanup`: closes the peer connection and signaling
channel, terminates ffmpeg, removes each recorded pipe path that exists
(the source guards with Python truthiness, so an empty-string path is
skipped), clears the pipe/track slots, and finally forces the state to
`STOPPED` unless it is already `STOPPED` or `STOPPING`.
`cleanupFS` is the filesystem effect of the pipe-removal loop. -/
def cleanupFS (s : Session) (fs : FS) : FS :=
  let fs1 := match s.videoPipe with
    | some p => if p ≠ "" ∧ p ∈ fs then fsRemove fs p else fs
    | none => fs
  match s.audioPipe with
  | some p => if p ≠ "" ∧ p ∈ fs1 then fsRemove fs1 p else fs1
  | none => fs1

/-- `WebRtcStream._cleanup` as a whole: the cleared session paired with
the filesystem after pipe removal. -/
def cleanup (s : Session) (fs : FS) : Session × FS :=
  ({ s with
      pc := false
      signaling := false
      ffmpegProcess := false
      videoPipe := none
      audioPipe := none
      videoTrack := false
      audioTrack := false
      state :=
        if s.state ≠ .stopped ∧ s.state ≠ .stopping then .stopped
        else s.state },
   cleanupFS s fs)

/-- `WebRtcStream.init`: MediaMTX init event, `* → INITIALIZING`,
returns `True`. -/
def init (s : Session) : Bool × Session :=
  (true, { s with state := .initializing })

/-- `WebRtcStream.start`: refused unless the state is `STOPPED` or
`INITIALIZING`; otherwise moves to `CONNECTING`, clears the stop event
and launches the event-loop thread. -/
def start (s : Session) : Bool × Session :=
  if s.state = .stopped ∨ s.state = .initializing then
    (true, { s with state := .connecting, stopEvent := false, loopThread := true })
  else
    (false, s)

/-- `WebRtcStream.stop`: immediate `True` when already `STOPPED`;
otherwise sets `STOPPING`, raises the stop event, stops the event loop
and joins the thread — which unwinds `_connect_webrtc` through its
`finally: await self._cleanup()` — then drops the thread handle and
settles in `STOPPED`, returning `True`. -/
def stop (s : Session) (fs : FS) : Bool × Session × FS :=
  if s.state = .stopped then (true, s, fs)
  else
    let s1 := { s with state := .stopping, stopEvent := true }
    let r := if s1.loopThread then cleanup s1 fs else (s1, fs)
    (true, { r.1 with loopThread := false, state := .stopped }, r.2)

/-- `WebRtcStream.enable`: `DISABLED → STOPPED` only; always `True`. -/
def enable (s : Session) : Bool × Session :=
  if s.state = .disabled then (true, { s with state := .stopped })
  else (true, s)

/-- `WebRtcStream.disable`: `stop()` then force `DISABLED`; always `True`. -/
def disable (s : Session) (fs : FS) : Bool × Session × FS :=
  let (_, s1, fs1) := stop s fs
  (true, { s1 with state := .disabled }, fs1)

/-- The backoff formula of `_handle_failure`:
`delay = min(2 ** self._reconnect_count, 60)`. -/
def backoffDelay (count : Nat) : Nat := min (2 ^ count) 60

/-- `WebRtcStream._handle_failure`: full `stop()`, then — only when
`options.reconnect` — increment the reconnect counter; below the ceiling
of 10 compute the backoff delay, sleep it and `start()` again, otherwise
log and give up.  The third component reports the delay slept, `none`
when no restart was attempted. -/
def handleFailure (s : Session) (fs : FS) : Session × FS × Option Nat :=
  let r := stop s fs
  if s.options.reconnect then
    let s2 : Session := { r.2.1 with reconnectCount := r.2.1.reconnectCount + 1 }
    if s2.reconnectCount < 10 then
      (( start s2).2, r.2.2, some (backoffDelay s2.reconnectCount))
    else
      (s2, r.2.2, none)
  else
    (r.2.1, r.2.2, none)

/-- `WebRtcStream.connected` property: `state == CONNECTED`. -/
def Session.isConnected (s : Session) : Bool := s.state = .connected

/-- `WebRtcStream.enabled` property: `state != DISABLED`. -/
def Session.isEnabled (s : Session) : Bool := s.state ≠ .disabled

/-- `WebRtcStream.motion` property:
`bool(self.motion_ts and time.time() - self.motion_ts < 60)`.
Python truthiness of `motion_ts` is `motion_ts ≠ 0`; natural subtraction
truncates at zero exactly as a negative Python difference also
compares `< 60`. -/
def Session.motion (s : Session) (now : Nat) : Bool :=
  s.motionTs ≠ 0 ∧ now - s.motionTs < 60

/-- ICE connection states the handlers in `_connect_webrtc` branch on. -/
inductive IceState where
  | new
  | checking
  | connected
  | completed
  | disconnected
  | failed
  | closed
  deriving DecidableEq, Repr

/-- The `iceconnectionstatechange` handler `on_ice_state_change` of
`_connect_webrtc`: returns untouched when `self.pc` is gone; on
`connected` sets `CONNECTED`, records the start time and zeroes the
reconnect counter; `checking` and `disconnected` only log; `failed` and
`closed` run `_cleanup`. -/
def onIceStateChange (s : Session) (fs : FS) (ice : IceState) (now : Nat) :
    Session × FS :=
  if s.pc = false then (s, fs)
  else
    match ice with
    | .connected =>
        ({ s with state := .connected, startTime := now, reconnectCount := 0 }, fs)
    | .failed => cleanup s fs
    | .closed => cleanup s fs
    | _ => (s, fs)

/-- The credential-failure path of `_connect_webrtc`: when
`api.get_kvs_signal` returns a result other than `"ok"` the coroutine
raises before any signaling or pipe setup, the `except` clause sets the
state to `STOPPED`, and the `finally` clause runs `_cleanup`. -/
def credentialFailurePath (s : Session) (fs : FS) : Session × FS :=
  cleanup { s with state := .stopped } fs

/-- `_connect_webrtc` up to its first fallible step, parameterised by the
result string of `api.get_kvs_signal`.  Only the not-`"ok"` outcome is a
complete synchronous path in the source (raise → except → finally); the
`"ok"` outcome hands over to the asynchronous handlers, so it is returned
as an `inr` marker carrying the unchanged session. -/
def connectWebrtcCredStep (s : Session) (fs : FS) (result : String) :
    (Session × FS) ⊕ Session :=
  if result ≠ "ok" then .inl (credentialFailurePath s fs)
  else .inr s

/-- The pipe-setup prefix of `_handle_media_tracks`: derives the pipe
paths from the URI (`/tmp/{uri}_video.pipe`, audio only when configured
and an audio track arrived), creates the fifos idempotently
(`FileExistsError` suppressed) and launches ffmpeg. -/
def handleMediaTracksSetup (s : Session) (fs : FS) : Session × FS :=
  let vp := "/tmp/" ++ s.uri ++ "_video.pipe"
  let s1 := { s with videoPipe := some vp }
  let s2 := if s1.options.audio ∧ s1.audioTrack then
      { s1 with audioPipe := some ("/tmp/" ++ s.uri ++ "_audio.pipe") }
    else s1
  let fs1 := if vp ∈ fs then fs else vp :: fs
  let fs2 := match s2.audioPipe with
    | some ap => if ap ∈ fs1 then fs1 else ap :: fs1
    | none => fs1
  ({ s2 with ffmpegProcess := true }, fs2)

/-- A value of the `get_info` dictionary. -/
inductive InfoValue where
  | s (v : String)
  | i (v : Int)
  | b (v : Bool)
  deriving DecidableEq, Repr

/-- Result of `get_info`: the whole dictionary, or one looked-up value
(`none` standing for Python `None`). -/
inductive InfoResult where
  | dict (fields : List (String × InfoValue))
  | val (v : Option InfoValue)
  deriving DecidableEq, Repr

/-- The eight-entry dictionary built by `WebRtcStream.get_info`. -/
def infoDict (s : Session) (now : Nat) : List (String × InfoValue) :=
  [ ("uri", .s s.uri),
    ("nickname", .s s.camera.nickname),
    ("state", .i (statusCode s.state)),
    ("connected", .b s.isConnected),
    ("enabled", .b s.isEnabled),
    ("motion", .b (s.motion now)),
    ("uptime", .i (if s.startTime ≠ 0 then (now : Int) - s.startTime else 0)),
    ("reconnects", .i s.reconnectCount) ]

/-- Dictionary lookup, `dict.get`. -/
def infoLookup (fields : List (String × InfoValue)) (k : String) :
    Option InfoValue :=
  match fields with
  | [] => none
  | (k', v) :: rest => if k' = k then some v else infoLookup rest k

/-- `WebRtcStream.get_info`: `return info.get(item) if item else info` —
note the Python truthiness test, under which both `None` and the empty
string return the full dictionary. -/
def get_info (s : Session) (now : Nat) (item : Option String) : InfoResult :=
  match item with
  | none => .dict (infoDict s now)
  | some k =>
      if k = "" then .dict (infoDict s now)
      else .val (infoLookup (infoDict s now) k)

/-- `WebRtcStream.status`: state-name map with an `"unknown"` default
(unreachable over the enumerated states). -/
def status (s : Session) : String :=
  match s.state with
  | .offline => "offline"
  | .stopping => "stopping"
  | .disabled => "disabled"
  | .stopped => "stopped"
  | .connecting => "connecting"
  | .connected => "connected"
  | .initializing => "initializing"

/-! ## KvsSignalingClient (`kvs_signaling.py`) -/

/-- Does `needle` occur as a contiguous substring of `hay`?  Embeds the
Python `in` test on strings. -/
def hasInfix : List Char → List Char → Bool
  | hay@(_ :: t), needle => needle.isPrefixOf hay || hasInfix t needle
  | [], needle => needle.isEmpty

/-- Python `needle in hay` on strings. -/
def containsSubstr (hay needle : String) : Bool := hasInfix hay.data needle.data

/-- Bytes `urllib.parse.quote` leaves unescaped when `safe` is empty: ASCII
letters, digits, and `_.-~`. -/
def isUnreservedByte (b : UInt8) : Bool :=
  (65 ≤ b.toNat ∧ b.toNat ≤ 90) ∨ (97 ≤ b.toNat ∧ b.toNat ≤ 122) ∨
  (48 ≤ b.toNat ∧ b.toNat ≤ 57) ∨
  b.toNat = 45 ∨ b.toNat = 46 ∨ b.toNat = 95 ∨ b.toNat = 126

/-- Upper-case hex digit of a value below 16, as `quote` produces. -/
def hexDigit (n : Nat) : Char :=
  if n < 10 then Char.ofNat (48 + n) else Char.ofNat (55 + n)

/-- One byte of `urllib.parse.quote` output with `safe` empty. -/
def quoteByte (b : UInt8) : String :=
  if isUnreservedByte b then String.singleton (Char.ofNat b.toNat)
  else "%" ++ String.singleton (hexDigit (b.toNat / 16))
      ++ String.singleton (hexDigit (b.toNat % 16))

/-- `urllib.parse.quote` with `safe` empty: percent-encode every UTF-8 byte
outside the unreserved set. -/
def urlQuote (s : String) : String :=
  s.toUTF8.toList.foldl (fun acc b => acc ++ quoteByte b) ""

/-- `KvsSignalingClient.__init__` URL construction: a URL containing the
AWS pre-signed marker `X-Amz-` is used exactly as given; otherwise
`ClientId` and `signalToken` are appended as quoted query parameters,
separated from the URL by `&` when it already has a `?`, else by `?`. -/
def buildSignalingUrl (signalingUrl clientId token : String) : String :=
  if containsSubstr signalingUrl "X-Amz-" then signalingUrl
  else
    let sep := if containsSubstr signalingUrl "?" then "&" else "?"
    signalingUrl ++ sep ++ "ClientId=" ++ urlQuote clientId ++
      "&signalToken=" ++ urlQuote token

/-- JSON values, for the payloads the signaling client decodes. -/
inductive Json where
  | str (s : String)
  | num (n : Int)
  | bool (b : Bool)
  | null
  | arr (elems : List Json)
  | obj (fields : List (String × Json))

/-- `dict.get` on a decoded JSON object. -/
def jsonLookup (fields : List (String × Json)) (k : String) : Option Json :=
  match fields with
  | [] => none
  | (k', v) :: rest => if k' = k then some v else jsonLookup rest k

/-- Python truthiness of a JSON value (`if encoded_payload:`). -/
def jsonTruthy : Json → Bool
  | .str s => s ≠ ""
  | .num n => n ≠ 0
  | .bool b => b
  | .null => false
  | .arr l => ¬l.isEmpty
  | .obj l => ¬l.isEmpty

/-- `data.get("messageType") == t`: true only when the field is the
string `t`. -/
def isMsgType (v : Option Json) (t : String) : Bool :=
  match v with
  | some (.str s) => s = t
  | _ => false

/-- An invocation of one of the registered signaling callbacks. -/
inductive Call where
  | answer (sdp : Option Json)
  | answerRaw (decoded : String)
  | candidate (c : Json)

/-- A `try:`/`except: log` block around a callback-producing body: an
escaping exception is caught and the message dropped. -/
def tryCatchCalls (x : Except String (List Call)) : List Call :=
  match x with
  | .ok l => l
  | .error _ => []

/-- Body of the `SDP_ANSWER` `try` block of `_handle_message`:
a falsy `messagePayload` is logged as missing; otherwise
`base64.b64decode(...).decode()` then `json.loads` run (each may raise),
and `on_answer` receives the `sdp` field when the payload is a dict, the
raw decoded string otherwise. -/
def answerBranchBody (b64 : String → Option String) (jp : String → Option Json)
    (payloadField : Option Json) : Except String (List Call) :=
  match payloadField with
  | some (.str ep) =>
      if ep ≠ "" then
        match b64 ep with
        | none => .error "binascii or unicode error"
        | some decoded =>
          match jp decoded with
          | none => .error "JSONDecodeError"
          | some (.obj fields) => .ok [.answer (jsonLookup fields "sdp")]
          | some _ => .ok [.answerRaw decoded]
      else .ok []
  | some v => if jsonTruthy v then .error "TypeError" else .ok []
  | none => .ok []

/-- Body of the `ICE_CANDIDATE` `try` block of `_handle_message`:
a falsy `messagePayload` is skipped silently; otherwise decode as for
answers and hand the parsed candidate to `on_ice_candidate`. -/
def candidateBranchBody (b64 : String → Option String) (jp : String → Option Json)
    (payloadField : Option Json) : Except String (List Call) :=
  match payloadField with
  | some (.str ep) =>
      if ep ≠ "" then
        match b64 ep with
        | none => .error "binascii or unicode error"
        | some decoded =>
          match jp decoded with
          | none => .error "JSONDecodeError"
          | some candidate => .ok [.candidate candidate]
      else .ok []
  | some v => if jsonTruthy v then .error "TypeError" else .ok []
  | none => .ok []

/-- `KvsSignalingClient._handle_message` on a decoded JSON dict: branch
on `messageType`; each decoding branch runs inside its own
`try`/`except` so a failure drops the message; `STATUS_RESPONSE` and
unknown types are logged only. -/
def handleMessage (b64 : String → Option String) (jp : String → Option Json)
    (onAnswer onCandidate : Bool) (data : List (String × Json)) : List Call :=
  let msgType := jsonLookup data "messageType"
  if isMsgType msgType "SDP_ANSWER" then
    if onAnswer then
      tryCatchCalls (answerBranchBody b64 jp (jsonLookup data "messagePayload"))
    else []
  else if isMsgType msgType "ICE_CANDIDATE" then
    if onCandidate then
      tryCatchCalls (candidateBranchBody b64 jp (jsonLookup data "messagePayload"))
    else []
  else []

/-- Body of the per-message `try` block of `_receive_loop`: skip blank
messages, `json.loads` the frame (may raise `JSONDecodeError`), then
`_handle_message`; a non-dict top level raises `AttributeError` inside
`_handle_message` at `data.get`. -/
def receiveStepBody (b64 : String → Option String) (jp : String → Option Json)
    (onAnswer onCandidate : Bool) (raw : String) : Except String (List Call) :=
  if raw.trim = "" then .ok []
  else
    match jp raw with
    | none => .error "JSONDecodeError"
    | some (.obj fields) => .ok (handleMessage b64 jp onAnswer onCandidate fields)
    | some _ => .error "AttributeError"

/-- One iteration of `KvsSignalingClient._receive_loop`: the loop wraps
each message in `try`/`except json.JSONDecodeError`/`except Exception`,
so no per-message failure escapes the loop — the total result is the
list of callback invocations, empty when the message was dropped. -/
def receiveStep (b64 : String → Option String) (jp : String → Option Json)
    (onAnswer onCandidate : Bool) (raw : String) : List Call :=
  tryCatchCalls (receiveStepBody b64 jp onAnswer onCandidate raw)

/-! ## Trace semantics for the §4.2 state machine -/

/-- Public operations of the Stream protocol surface. -/
inductive Op where
  | init
  | start
  | stop
  | disable
  | enable
  deriving DecidableEq, Repr

/-- `stop()` with the sequence of state values it writes:
`STOPPING` then `STOPPED` (the embedded `_cleanup` runs while the state
is `STOPPING`, so it writes no state of its own). -/
def stopRunT (s : Session) (fs : FS) : Session × FS × List StreamStatus :=
  if s.state = .stopped then (s, fs, [])
  else
    let s1 := { s with state := .stopping, stopEvent := true }
    let r := if s1.loopThread then cleanup s1 fs else (s1, fs)
    ({ r.1 with loopThread := false, state := .stopped }, r.2, [.stopping, .stopped])

/-- One public operation together with the sequence of state values it
writes, in program order of the assignments to `self.state`. -/
def opRun (op : Op) (s : Session) (fs : FS) : Session × FS × List StreamStatus :=
  match op with
  | .init => ({ s with state := .initializing }, fs, [.initializing])
  | .start =>
      if s.state = .stopped ∨ s.state = .initializing then
        ({ s with state := .connecting, stopEvent := false, loopThread := true },
          fs, [.connecting])
      else (s, fs, [])
  | .stop => stopRunT s fs
  | .disable =>
      let r := stopRunT s fs
      ({ r.1 with state := .disabled }, r.2.1, r.2.2 ++ [.disabled])
  | .enable =>
      if s.state = .disabled then ({ s with state := .stopped }, fs, [.stopped])
      else (s, fs, [])

/-- Run a sequence of public operations, concatenating the state traces. -/
def runOps : List Op → Session → FS → Session × FS × List StreamStatus
  | [], s, fs => (s, fs, [])
  | op :: rest, s, fs =>
      let r1 := opRun op s fs
      let r2 := runOps rest r1.1 r1.2.1
      (r2.1, r2.2.1, r1.2.2 ++ r2.2.2)

/-- The §4.2 transition table of the specification:
`init: * → Initializing`; `start: Stopped|Initializing → Connecting`;
transport connected: `Connecting → Connected`;
`stop`: any state but `Stopped` → `Stopping`, and `Stopping → Stopped`;
`Disabled` reachable from any non-connecting state; `enable:
Disabled → Stopped`; `Offline` when the camera is confirmed unreachable
while connecting. -/
def specStepB : StreamStatus → StreamStatus → Bool
  | _, .initializing => true
  | .stopped, .connecting => true
  | .initializing, .connecting => true
  | .connecting, .connected => true
  | .stopped, .stopping => false
  | _, .stopping => true
  | .stopping, .stopped => true
  | .disabled, .stopped => true
  | .connecting, .disabled => false
  | _, .disabled => true
  | .connecting, .offline => true
  | _, _ => false

/-- Every consecutive pair of a state path lies in the §4.2 table. -/
def pathOk : StreamStatus → List StreamStatus → Bool
  | _, [] => true
  | a, b :: rest => specStepB a b && pathOk b rest

/-- No consecutive pair of the path steps directly from `Connected` to
`Stopped`. -/
def noConnectedToStopped : StreamStatus → List StreamStatus → Bool
  | _, [] => true
  | a, b :: rest =>
      !(a = StreamStatus.connected ∧ b = StreamStatus.stopped) &&
        noConnectedToStopped b rest

/-! ## Sample data -/

/-- A sample camera record. -/
def camA : Camera := ⟨"cam", "Cam"⟩

/-- Sample options with reconnection enabled. -/
def optsR : Options := ⟨true, true, 180⟩

/-- A connected session after three failed reconnects. -/
def sessConn3 : Session :=
  { mkSession camA optsR with
    state := .connected, reconnectCount := 3, loopThread := true, pc := true,
    startTime := 500 }

/-- A connected session with a live transport. -/
def sessConnected : Session :=
  { mkSession camA optsR with
    state := .connected, pc := true, loopThread := true, startTime := 1000 }

/-- The in-memory resource handles `stop()`/`_cleanup` must release:
peer connection, signaling channel, ffmpeg subprocess, pipe references. -/
def resourcesClear (s : Session) : Prop :=
  s.pc = false ∧ s.signaling = false ∧ s.ffmpegProcess = false ∧
  s.videoPipe = none ∧ s.audioPipe = none

/-- A connected episode with both pipes recorded and ffmpeg running. -/
def sessPipes : Session :=
  { sessConnected with
    videoPipe := some "/tmp/cam_video.pipe"
    audioPipe := some "/tmp/cam_audio.pipe"
    ffmpegProcess := true, signaling := true
    videoTrack := true, audioTrack := true }

/-- The eight keys of the `get_info` dictionary. -/
def infoKeys : List String :=
  ["uri", "nickname", "state", "connected", "enabled", "motion",
   "uptime", "reconnects"]

/-- The session as `start()` leaves it on a fresh attempt. -/
def sessStarted : Session := (start (mkSession camA optsR)).2

/-- The last state of a trace, defaulting to the state before it. -/
def lastD : List StreamStatus → StreamStatus → StreamStatus
  | [], a => a
  | b :: rest, _ => lastD rest b

/-! ## Helper lemmas -/

theorem stop_fst (s : Session) (fs : FS) : (stop s fs).1 = true := by
  unfold stop
  split <;> rfl

theorem stop_state (s : Session) (fs : FS) : (stop s fs).2.1.state = .stopped := by
  unfold stop
  split
  · next h => exact h
  · rfl

theorem stop_reconnectCount (s : Session) (fs : FS) :
    (stop s fs).2.1.reconnectCount = s.reconnectCount := by
  unfold stop
  split
  · rfl
  · dsimp only
    split <;> rfl

theorem start_of_stopped (s : Session) (h : s.state = .stopped) :
    (start s).2 =
      { s with state := .connecting, stopEvent := false, loopThread := true } := by
  unfold start
  simp [h]

theorem not_mem_fsRemove_self {p : String} {fs : FS} : p ∉ fsRemove fs p := by
  simp [fsRemove]

theorem not_mem_fsRemove_of_not_mem {p q : String} {fs : FS} (h : p ∉ fs) :
    p ∉ fsRemove fs q := fun hmem => h (List.mem_of_mem_filter hmem)

theorem cleanupFS_not_mem_video (s : Session) (fs : FS) (p : String)
    (hp : s.videoPipe = some p) (hne : p ≠ "") : p ∉ cleanupFS s fs := by
  unfold cleanupFS
  rw [hp]
  by_cases hmem : p ∈ fs
  · simp only [hne, hmem, ne_eq, not_false_iff, true_and, if_true]
    rcases s.audioPipe with _ | q
    · exact not_mem_fsRemove_self
    · dsimp only
      split
      · exact not_mem_fsRemove_of_not_mem not_mem_fsRemove_self
      · exact not_mem_fsRemove_self
  · simp only [hmem, and_false, if_false]
    rcases s.audioPipe with _ | q
    · exact hmem
    · dsimp only
      split
      · exact not_mem_fsRemove_of_not_mem hmem
      · exact hmem

theorem cleanupFS_not_mem_audio (s : Session) (fs : FS) (p : String)
    (hp : s.audioPipe = some p) (hne : p ≠ "") : p ∉ cleanupFS s fs := by
  unfold cleanupFS
  rw [hp]
  dsimp only
  by_cases hmem :
      p ∈ (match s.videoPipe with
            | some q => if q ≠ "" ∧ q ∈ fs then fsRemove fs q else fs
            | none => fs)
  · simp only [hne, hmem, ne_eq, not_false_iff, true_and, if_true]
    exact not_mem_fsRemove_self
  · simp only [hmem, and_false, if_false]
    exact not_false

/-! ## Claim theorems -/

theorem stop_of_stopped (s : Session) (fs : FS) (h : s.state = .stopped) :
    stop s fs = (true, s, fs) := by
  unfold stop
  simp [h]

/-- C1: on a fatal failure handled with reconnection enabled,
`_handle_failure` increments the reconnect counter; while the counter is
below the ceiling of 10 it sleeps `min(2^counter, 60)` and calls
`start()` again (leaving the session `CONNECTING`), and once the counter
reaches 10 it makes no restart attempt, leaving the session `STOPPED`.
For every counter value 1..12 the delay formula equals
`min(2^counter, 60)`, is monotonically non-decreasing, and saturates at
60 from counter 6 on. -/
theorem handle_failure_backoff_C1 (s : Session) (fs : FS)
    (hrec : s.options.reconnect = true) :
    (handleFailure s fs).1.reconnectCount = s.reconnectCount + 1 ∧
    (s.reconnectCount + 1 < 10 →
      (handleFailure s fs).2.2 = some (backoffDelay (s.reconnectCount + 1)) ∧
      (handleFailure s fs).1.state = .connecting) ∧
    (10 ≤ s.reconnectCount + 1 →
      (handleFailure s fs).2.2 = none ∧
      (handleFailure s fs).1.state = .stopped) ∧
    (∀ k, 1 ≤ k → k ≤ 12 → backoffDelay k = min (2 ^ k) 60) ∧
    (∀ j k, j ≤ k → backoffDelay j ≤ backoffDelay k) ∧
    (∀ k, 6 ≤ k → backoffDelay k = 60) := by
  have hcnt := stop_reconnectCount s fs
  have hst := stop_state s fs
  refine ⟨?_, ?_, ?_, ?_, ?_, ?_⟩
  · by_cases h10 : s.reconnectCount + 1 < 10 <;>
      simp [handleFailure, hrec, hcnt, hst, h10, start]
  · intro h10
    constructor <;> simp [handleFailure, hrec, hcnt, hst, h10, start]
  · intro h10
    have h10' : ¬s.reconnectCount + 1 < 10 := by omega
    constructor <;> simp [handleFailure, hrec, hcnt, hst, h10', start]
  · intro k _ _
    rfl
  · intro j k hjk
    exact min_le_min (Nat.pow_le_pow_right (by norm_num) hjk) le_rfl
  · intro k hk
    exact Nat.min_eq_right
      (le_trans (by norm_num : (60 : ℕ) ≤ 2 ^ 6)
        (Nat.pow_le_pow_right (by norm_num) hk))

/-- Witness for C1 at a concrete session with counter 3 and
reconnection enabled. -/
theorem handle_failure_backoff_C1_witness :
    sessConn3.options.reconnect = true ∧
    (handleFailure sessConn3 []).1.reconnectCount = sessConn3.reconnectCount + 1 :=
  ⟨rfl, (handle_failure_backoff_C1 sessConn3 [] rfl).1⟩

/-- C4: whenever the ICE connection state becomes `connected` (with the
peer connection still present), the handler sets the state to
`CONNECTED`, records the current time as start timestamp, and resets the
reconnect counter to 0, whatever its prior value. -/
theorem ice_connected_resets_C4 (s : Session) (fs : FS) (now : Nat)
    (h : s.pc = true) :
    (onIceStateChange s fs .connected now).1 =
      { s with state := .connected, startTime := now, reconnectCount := 0 } ∧
    (onIceStateChange s fs .connected now).2 = fs := by
  unfold onIceStateChange
  simp [h]

/-- Witness for C4 at a concrete session with reconnect counter 3. -/
theorem ice_connected_resets_C4_witness :
    (onIceStateChange sessConn3 [] .connected 42).1 =
      { sessConn3 with state := .connected, startTime := 42, reconnectCount := 0 } :=
  (ice_connected_resets_C4 sessConn3 [] 42 rfl).1

/-- C5: `start()` succeeds — returning `True`, moving to `CONNECTING`,
clearing the stop flag and launching the connection thread — exactly
when the state is `STOPPED` or `INITIALIZING`; from every other state it
returns `False` and leaves the session unchanged. -/
theorem start_gate_C5 (s : Session) :
    ((start s).1 = true ↔ s.state = .stopped ∨ s.state = .initializing) ∧
    (s.state = .stopped ∨ s.state = .initializing →
      (start s).2 =
        { s with state := .connecting, stopEvent := false, loopThread := true }) ∧
    (¬(s.state = .stopped ∨ s.state = .initializing) →
      (start s).1 = false ∧ (start s).2 = s) := by
  by_cases h : s.state = .stopped ∨ s.state = .initializing <;>
    simp [start, h]

/-- Witness for C5: a fresh session starts; a connected one is refused
unchanged. -/
theorem start_gate_C5_witness :
    (start (mkSession camA optsR)).1 = true ∧
    (start sessConnected).1 = false ∧ (start sessConnected).2 = sessConnected :=
  ⟨(start_gate_C5 (mkSession camA optsR)).1.mpr (Or.inl rfl),
   (start_gate_C5 sessConnected).2.2 (by decide)⟩

/-- C7: `_cleanup` — run on every teardown path (normal stop, fatal
failure, or exception, via the thread join in `stop()` and the final
`finally` clause of the coroutine) — removes the recorded video pipe
file and, when audio was
configured, the audio pipe file from the filesystem, and clears the
in-memory pipe and track references.  The hypotheses record that the
pipe paths of a connected episode (of the form `/tmp/..._video.pipe`)
are non-empty strings. -/
theorem cleanup_pipes_C7 (s : Session) (fs : FS)
    (hv : ∀ p, s.videoPipe = some p → p ≠ "")
    (ha : ∀ p, s.audioPipe = some p → p ≠ "") :
    (∀ p, s.videoPipe = some p → p ∉ (cleanup s fs).2) ∧
    (∀ p, s.audioPipe = some p → p ∉ (cleanup s fs).2) ∧
    (cleanup s fs).1.videoPipe = none ∧
    (cleanup s fs).1.audioPipe = none ∧
    (cleanup s fs).1.videoTrack = false ∧
    (cleanup s fs).1.audioTrack = false := by
  refine ⟨?_, ?_, rfl, rfl, rfl, rfl⟩
  · intro p hp
    exact cleanupFS_not_mem_video s fs p hp (hv p hp)
  · intro p hp
    exact cleanupFS_not_mem_audio s fs p hp (ha p hp)

/-- Witness for C7: both pipe files of a concrete connected episode are
gone after cleanup. -/
theorem cleanup_pipes_C7_witness :
    "/tmp/cam_video.pipe" ∉
      (cleanup sessPipes ["/tmp/cam_video.pipe", "/tmp/cam_audio.pipe"]).2 :=
  (cleanup_pipes_C7 sessPipes ["/tmp/cam_video.pipe", "/tmp/cam_audio.pipe"]
      (fun p hp => by cases hp; decide)
      (fun p hp => by cases hp; decide)).1
    "/tmp/cam_video.pipe" rfl

/-- C8: `stop()` is idempotent: both of two successive calls return
`True` and never raise, the session is `STOPPED` with its peer
connection, signaling channel, ffmpeg subprocess and pipe references
released after each call, and the second call on the already-`STOPPED`
session changes nothing.  The hypotheses state that live resources are
owned by the connection thread (they exist only while it runs), as the
source arranges. -/
theorem stop_idempotent_C8 (s : Session) (fs : FS)
    (h1 : s.state = .stopped → resourcesClear s)
    (h2 : s.loopThread = false → resourcesClear s) :
    (stop s fs).1 = true ∧
    (stop s fs).2.1.state = .stopped ∧
    resourcesClear (stop s fs).2.1 ∧
    (stop (stop s fs).2.1 (stop s fs).2.2).1 = true ∧
    (stop (stop s fs).2.1 (stop s fs).2.2).2.1 = (stop s fs).2.1 ∧
    (stop (stop s fs).2.1 (stop s fs).2.2).2.2 = (stop s fs).2.2 := by
  have hss := stop_state s fs
  have hsecond := stop_of_stopped (stop s fs).2.1 (stop s fs).2.2 hss
  refine ⟨stop_fst s fs, hss, ?_, ?_, ?_, ?_⟩
  · by_cases hst : s.state = .stopped
    · rw [stop_of_stopped s fs hst]
      exact h1 hst
    · by_cases hl : s.loopThread = true
      · simp [stop, hst, hl, cleanup, resourcesClear]
      · have hc := h2 (by simpa using hl)
        simp only [stop, hst, if_false, hl]
        simpa [resourcesClear] using hc
  · rw [hsecond]
  · rw [hsecond]
  · rw [hsecond]

/-- Witness for C8 at a concrete connected session. -/
theorem stop_idempotent_C8_witness :
    (stop sessConnected []).1 = true ∧
    (stop sessConnected []).2.1.state = .stopped :=
  ⟨(stop_idempotent_C8 sessConnected []
      (fun h => absurd h (by decide)) (fun h => absurd h (by decide))).1,
   (stop_idempotent_C8 sessConnected []
      (fun h => absurd h (by decide)) (fun h => absurd h (by decide))).2.1⟩

/-- C9: `KvsSignalingClient.__init__` uses a URL containing the
pre-signed marker `X-Amz-` exactly as given; otherwise it appends the
quoted client id and token, separated by `&` when the URL already has a
`?` and by `?` otherwise. -/
theorem presigned_url_C9 (url cid tok : String) :
    (containsSubstr url "X-Amz-" = true → buildSignalingUrl url cid tok = url) ∧
    (containsSubstr url "X-Amz-" = false → containsSubstr url "?" = true →
      buildSignalingUrl url cid tok =
        url ++ "&" ++ "ClientId=" ++ urlQuote cid ++
          "&signalToken=" ++ urlQuote tok) ∧
    (containsSubstr url "X-Amz-" = false → containsSubstr url "?" = false →
      buildSignalingUrl url cid tok =
        url ++ "?" ++ "ClientId=" ++ urlQuote cid ++
          "&signalToken=" ++ urlQuote tok) := by
  refine ⟨fun h => ?_, fun h hq => ?_, fun h hq => ?_⟩
  · simp [buildSignalingUrl, h]
  · simp [buildSignalingUrl, h, hq]
  · simp [buildSignalingUrl, h, hq]

/-- Witness for C9: a pre-signed AWS URL passes through; a bare Wyze URL
gets `?ClientId=...&signalToken=...` appended. -/
theorem presigned_url_C9_witness :
    buildSignalingUrl "wss://kvs.amazonaws.com/?X-Amz-Signature=abc" "cid" "tok" =
      "wss://kvs.amazonaws.com/?X-Amz-Signature=abc" ∧
    buildSignalingUrl "wss://wyze/sig" "c id" "t&k" =
      "wss://wyze/sig" ++ "?" ++ "ClientId=" ++ urlQuote "c id" ++
        "&signalToken=" ++ urlQuote "t&k" :=
  ⟨(presigned_url_C9 "wss://kvs.amazonaws.com/?X-Amz-Signature=abc" "cid" "tok").1
      (by decide),
   (presigned_url_C9 "wss://wyze/sig" "c id" "t&k").2.2 (by decide) (by decide)⟩

/-- C10 (amended): `enabled` is true exactly when the state is not
`DISABLED` (so `OFFLINE`, `STOPPING`, `STOPPED`, `CONNECTING`,
`INITIALIZING` all report enabled), `connected` exactly when the state
is `CONNECTED`; `get_info` derives its `enabled`/`connected` fields from
these predicates; and `get_info(item)` returns `None` for every
*non-empty* item name outside the eight fields (the empty string is
falsy in Python and returns the full dictionary instead). -/
theorem info_flags_C10 (s : Session) (now : Nat) :
    (s.isEnabled = true ↔ s.state ≠ .disabled) ∧
    (s.isConnected = true ↔ s.state = .connected) ∧
    (∀ st, st ∈ [StreamStatus.offline, .stopping, .stopped, .connecting,
        .initializing] → Session.isEnabled { s with state := st } = true) ∧
    get_info s now (some "enabled") = .val (some (.b s.isEnabled)) ∧
    get_info s now (some "connected") = .val (some (.b s.isConnected)) ∧
    (∀ k, k ≠ "" → k ∉ infoKeys → get_info s now (some k) = .val none) := by
  refine ⟨?_, ?_, ?_, rfl, rfl, ?_⟩
  · simp [Session.isEnabled]
  · simp [Session.isConnected]
  · intro st hst
    fin_cases hst <;> simp [Session.isEnabled]
  · intro k hk hkm
    simp only [infoKeys, List.mem_cons, not_or, List.not_mem_nil] at hkm
    obtain ⟨h1, h2, h3, h4, h5, h6, h7, h8, -⟩ := hkm
    simp only [get_info, if_neg hk, infoDict, infoLookup]
    rw [if_neg (fun h => h1 h.symm), if_neg (fun h => h2 h.symm),
      if_neg (fun h => h3 h.symm), if_neg (fun h => h4 h.symm),
      if_neg (fun h => h5 h.symm), if_neg (fun h => h6 h.symm),
      if_neg (fun h => h7 h.symm), if_neg (fun h => h8 h.symm)]

/-- Witness for C10: a bogus non-empty item yields `None`; the
enabled/connected flags of a connected session. -/
theorem info_flags_C10_witness :
    get_info sessConnected 0 (some "bogus") = .val none ∧
    sessConnected.isConnected = true :=
  ⟨(info_flags_C10 sessConnected 0).2.2.2.2.2 "bogus" (by decide) (by decide),
   (info_flags_C10 sessConnected 0).2.1.mpr rfl⟩

/-- Counterexample for C10 as frozen: the empty string is not one of the
eight fields, yet `get_info("")` returns the full dictionary, not
`None`, because the Python truthiness test `if item` treats the empty
string as no item. -/
theorem info_empty_item_counterexample_C10 :
    ("" ∈ infoKeys) = False ∧
    get_info sessConnected 0 (some "") ≠ .val none := by
  refine ⟨by decide, ?_⟩
  intro h
  exact absurd h (by decide)

/-- C3 (amended): when the credential lookup returns a result other than
`"ok"`, `_connect_webrtc` raises before any signaling or pipe setup; the
attempt ends with the session `STOPPED`, the reconnect counter
*unchanged* (the failure path never reaches `_handle_failure`), and no
pipe files created. -/
theorem cred_fail_stopped_C3 (s : Session) (fs : FS) (result : String)
    (hres : result ≠ "ok") (hv : s.videoPipe = none) (ha : s.audioPipe = none) :
    connectWebrtcCredStep s fs result = .inl (credentialFailurePath s fs) ∧
    (credentialFailurePath s fs).1.state = .stopped ∧
    (credentialFailurePath s fs).1.reconnectCount = s.reconnectCount ∧
    (credentialFailurePath s fs).1.videoPipe = none ∧
    (credentialFailurePath s fs).1.audioPipe = none ∧
    (credentialFailurePath s fs).2 = fs := by
  refine ⟨by simp [connectWebrtcCredStep, hres], ?_, rfl, rfl, rfl, ?_⟩
  · simp [credentialFailurePath, cleanup]
  · simp [credentialFailurePath, cleanup, cleanupFS, hv, ha]

/-- Witness for C3 (amended) at a freshly started session. -/
theorem cred_fail_stopped_C3_witness :
    (credentialFailurePath sessStarted []).1.state = .stopped ∧
    (credentialFailurePath sessStarted []).1.reconnectCount =
      sessStarted.reconnectCount :=
  ⟨(cred_fail_stopped_C3 sessStarted [] "error" (by decide) rfl rfl).2.1,
   (cred_fail_stopped_C3 sessStarted [] "error" (by decide) rfl rfl).2.2.1⟩

/-- Counterexample for C3 as frozen: after `start()` and a failed
credential lookup the session is `STOPPED` with no pipes, but its
reconnect counter is still 0 — it was *not* incremented exactly once
(the claim would require it to equal 1). -/
theorem cred_fail_counter_counterexample_C3 :
    (start (mkSession camA optsR)).1 = true ∧
    (credentialFailurePath sessStarted []).1.state = .stopped ∧
    (credentialFailurePath sessStarted []).1.reconnectCount = 0 ∧
    ¬(credentialFailurePath sessStarted []).1.reconnectCount =
        (mkSession camA optsR).reconnectCount + 1 := by
  decide

theorem tryCatch_answer_b64fail (b64 : String → Option String)
    (jp : String → Option Json) (ep : String) (h : b64 ep = none) :
    tryCatchCalls (answerBranchBody b64 jp (some (.str ep))) = [] := by
  unfold answerBranchBody
  by_cases hne : ep = ""
  · simp [hne, tryCatchCalls]
  · simp [hne, h, tryCatchCalls]

theorem tryCatch_answer_jpfail (b64 : String → Option String)
    (jp : String → Option Json) (ep decoded : String)
    (hb : b64 ep = some decoded) (hj : jp decoded = none) :
    tryCatchCalls (answerBranchBody b64 jp (some (.str ep))) = [] := by
  unfold answerBranchBody
  by_cases hne : ep = ""
  · simp [hne, tryCatchCalls]
  · simp [hne, hb, hj, tryCatchCalls]

theorem tryCatch_cand_b64fail (b64 : String → Option String)
    (jp : String → Option Json) (ep : String) (h : b64 ep = none) :
    tryCatchCalls (candidateBranchBody b64 jp (some (.str ep))) = [] := by
  unfold candidateBranchBody
  by_cases hne : ep = ""
  · simp [hne, tryCatchCalls]
  · simp [hne, h, tryCatchCalls]

theorem tryCatch_cand_jpfail (b64 : String → Option String)
    (jp : String → Option Json) (ep decoded : String)
    (hb : b64 ep = some decoded) (hj : jp decoded = none) :
    tryCatchCalls (candidateBranchBody b64 jp (some (.str ep))) = [] := by
  unfold candidateBranchBody
  by_cases hne : ep = ""
  · simp [hne, tryCatchCalls]
  · simp [hne, hb, hj, tryCatchCalls]

theorem handleMessage_drop (b64 : String → Option String)
    (jp : String → Option Json) (onA onC : Bool)
    (data : List (String × Json))
    (hA : tryCatchCalls
        (answerBranchBody b64 jp (jsonLookup data "messagePayload")) = [])
    (hC : tryCatchCalls
        (candidateBranchBody b64 jp (jsonLookup data "messagePayload")) = []) :
    handleMessage b64 jp onA onC data = [] := by
  unfold handleMessage
  split_ifs <;> simp [hA, hC]

/-- C6: every malformed inbound signaling message — a frame that is not
JSON, a frame whose JSON is not an object, a message missing
`messagePayload`, a payload whose base64 (or utf-8) decoding fails, or a
decoded payload that is not JSON — is dropped by the receive loop
without raising (every failure lands in an `except` clause of the
source, so `receiveStep` is total) and without invoking the registered
answer or ICE-candidate callback. -/
theorem malformed_dropped_C6 (b64 : String → Option String)
    (jp : String → Option Json) (onA onC : Bool) :
    (∀ raw, jp raw = none → receiveStep b64 jp onA onC raw = []) ∧
    (∀ raw j, jp raw = some j → (∀ fields, j ≠ .obj fields) →
      receiveStep b64 jp onA onC raw = []) ∧
    (∀ raw fields, jp raw = some (.obj fields) →
      jsonLookup fields "messagePayload" = none →
      receiveStep b64 jp onA onC raw = []) ∧
    (∀ raw fields ep, jp raw = some (.obj fields) →
      jsonLookup fields "messagePayload" = some (.str ep) → b64 ep = none →
      receiveStep b64 jp onA onC raw = []) ∧
    (∀ raw fields ep decoded, jp raw = some (.obj fields) →
      jsonLookup fields "messagePayload" = some (.str ep) →
      b64 ep = some decoded → jp decoded = none →
      receiveStep b64 jp onA onC raw = []) := by
  refine ⟨?_, ?_, ?_, ?_, ?_⟩
  · intro raw h
    by_cases htrim : raw.trim = "" <;>
      simp [receiveStep, receiveStepBody, htrim, h, tryCatchCalls]
  · intro raw j hj hno
    by_cases htrim : raw.trim = ""
    · simp [receiveStep, receiveStepBody, htrim, tryCatchCalls]
    · unfold receiveStep receiveStepBody
      rw [if_neg htrim, hj]
      cases j with
      | obj fields => exact absurd rfl (hno fields)
      | str v => rfl
      | num v => rfl
      | bool v => rfl
      | null => rfl
      | arr v => rfl
  · intro raw fields hj hpf
    by_cases htrim : raw.trim = ""
    · simp [receiveStep, receiveStepBody, htrim, tryCatchCalls]
    · unfold receiveStep receiveStepBody
      rw [if_neg htrim, hj]
      simp only [tryCatchCalls]
      exact handleMessage_drop b64 jp onA onC fields
        (by rw [hpf]; rfl) (by rw [hpf]; rfl)
  · intro raw fields ep hj hpf hb
    by_cases htrim : raw.trim = ""
    · simp [receiveStep, receiveStepBody, htrim, tryCatchCalls]
    · unfold receiveStep receiveStepBody
      rw [if_neg htrim, hj]
      simp only [tryCatchCalls]
      exact handleMessage_drop b64 jp onA onC fields
        (by rw [hpf]; exact tryCatch_answer_b64fail b64 jp ep hb)
        (by rw [hpf]; exact tryCatch_cand_b64fail b64 jp ep hb)
  · intro raw fields ep decoded hj hpf hb hjd
    by_cases htrim : raw.trim = ""
    · simp [receiveStep, receiveStepBody, htrim, tryCatchCalls]
    · unfold receiveStep receiveStepBody
      rw [if_neg htrim, hj]
      simp only [tryCatchCalls]
      exact handleMessage_drop b64 jp onA onC fields
        (by rw [hpf]; exact tryCatch_answer_jpfail b64 jp ep decoded hb hjd)
        (by rw [hpf]; exact tryCatch_cand_jpfail b64 jp ep decoded hb hjd)

/-- Witness for C6: a frame that fails top-level JSON parsing invokes no
callback. -/
theorem malformed_dropped_C6_witness :
    receiveStep (fun _ => none) (fun _ => none) true true "garbage" = [] :=
  (malformed_dropped_C6 (fun _ => none) (fun _ => none) true true).1 "garbage" rfl

theorem specStepB_to_initializing (a : StreamStatus) :
    specStepB a .initializing = true := by
  cases a <;> rfl

theorem specStepB_to_stopping (a : StreamStatus) (h : a ≠ .stopped) :
    specStepB a .stopping = true := by
  cases a <;> first | rfl | exact absurd rfl h

theorem lastD_append (t1 t2 : List StreamStatus) (a : StreamStatus) :
    lastD (t1 ++ t2) a = lastD t2 (lastD t1 a) := by
  induction t1 generalizing a with
  | nil => rfl
  | cons b rest ih => simp [lastD, ih]

theorem pathOk_append (t1 t2 : List StreamStatus) (a : StreamStatus) :
    pathOk a (t1 ++ t2) = (pathOk a t1 && pathOk (lastD t1 a) t2) := by
  induction t1 generalizing a with
  | nil => simp [pathOk, lastD]
  | cons b rest ih =>
      simp [pathOk, lastD, ih, Bool.and_assoc]

theorem opRun_conform (op : Op) (s : Session) (fs : FS) :
    pathOk s.state (opRun op s fs).2.2 = true ∧
    (opRun op s fs).1.state = lastD (opRun op s fs).2.2 s.state := by
  have hstopping : specStepB .stopping .stopped = true := rfl
  cases op with
  | init =>
      exact ⟨by simp [opRun, pathOk, specStepB_to_initializing], rfl⟩
  | start =>
      by_cases h : s.state = .stopped ∨ s.state = .initializing
      · constructor
        · simp only [opRun, if_pos h, pathOk, Bool.and_true]
          rcases h with h | h <;> rw [h] <;> rfl
        · simp [opRun, h, lastD]
      · constructor <;> simp [opRun, h, pathOk, lastD]
  | stop =>
      by_cases h : s.state = .stopped
      · constructor <;> simp [opRun, stopRunT, h, pathOk, lastD]
      · constructor
        · simp [opRun, stopRunT, h, pathOk,
            specStepB_to_stopping s.state h, hstopping]
        · simp [opRun, stopRunT, h, lastD]
  | disable =>
      by_cases h : s.state = .stopped
      · constructor
        · simp only [opRun, stopRunT, if_pos h, List.nil_append, pathOk,
            Bool.and_true]
          rw [h]
          rfl
        · simp [opRun, stopRunT, h, lastD]
      · constructor
        · have hsd : specStepB .stopped .disabled = true := rfl
          simp [opRun, stopRunT, h, pathOk,
            specStepB_to_stopping s.state h, hstopping, hsd]
        · simp [opRun, stopRunT, h, lastD]
  | enable =>
      by_cases h : s.state = .disabled
      · constructor
        · simp only [opRun, if_pos h, pathOk, Bool.and_true]
          rw [h]
          rfl
        · simp [opRun, h, lastD]
      · constructor <;> simp [opRun, h, pathOk, lastD]

theorem runOps_conform (ops : List Op) (s : Session) (fs : FS) :
    pathOk s.state (runOps ops s fs).2.2 = true ∧
    (runOps ops s fs).1.state = lastD (runOps ops s fs).2.2 s.state := by
  induction ops generalizing s fs with
  | nil => exact ⟨rfl, rfl⟩
  | cons op rest ih =>
      obtain ⟨p1, e1⟩ := opRun_conform op s fs
      obtain ⟨p2, e2⟩ := ih (opRun op s fs).1 (opRun op s fs).2.1
      constructor
      · show pathOk s.state
          ((opRun op s fs).2.2 ++ (runOps rest (opRun op s fs).1
            (opRun op s fs).2.1).2.2) = true
        rw [pathOk_append, p1, ← e1, p2]
        rfl
      · show (runOps rest (opRun op s fs).1 (opRun op s fs).2.1).1.state =
          lastD ((opRun op s fs).2.2 ++ (runOps rest (opRun op s fs).1
            (opRun op s fs).2.1).2.2) s.state
        rw [lastD_append, ← e1]
        exact e2

theorem noConnStop_of_pathOk (t : List StreamStatus) :
    ∀ a, pathOk a t = true → noConnectedToStopped a t = true := by
  induction t with
  | nil => intro a _; rfl
  | cons b rest ih =>
      intro a h
      rw [pathOk, Bool.and_eq_true] at h
      rw [noConnectedToStopped, Bool.and_eq_true]
      refine ⟨?_, ih b h.2⟩
      exact (by decide :
        ∀ x y, specStepB x y = true →
          (!(x = StreamStatus.connected ∧ y = StreamStatus.stopped) : Bool)
            = true) a b h.1

/-- C2 (amended): along every sequence of the public `start` / `stop` /
`disable` / `enable` (and `init`) calls, each state written conforms to
the §4.2 transition table, and in particular `Connected` is never
followed directly by `Stopped` without `Stopping` in between.  (As
frozen the claim also covered internal failure handling, which the
counterexample refutes.) -/
theorem state_machine_C2 (ops : List Op) (s : Session) (fs : FS) :
    pathOk s.state (runOps ops s fs).2.2 = true ∧
    noConnectedToStopped s.state (runOps ops s fs).2.2 = true :=
  ⟨(runOps_conform ops s fs).1,
   noConnStop_of_pathOk _ _ (runOps_conform ops s fs).1⟩

/-- Counterexample for C2 as frozen: internal failure handling breaks
the table.  When the ICE connection state turns `failed` while a session
is `Connected`, the `iceconnectionstatechange` handler runs `_cleanup`
directly, whose final guard moves the state straight from `CONNECTED` to
`STOPPED` — a step the §4.2 table forbids (`Connected` must pass through
`Stopping`). -/
theorem ice_failed_direct_stop_counterexample_C2 :
    sessConnected.state = .connected ∧
    (onIceStateChange sessConnected [] .failed 0).1.state = .stopped ∧
    specStepB .connected .stopped = false ∧
    pathOk sessConnected.state
      [(onIceStateChange sessConnected [] .failed 0).1.state] = false ∧
    noConnectedToStopped sessConnected.state
      [(onIceStateChange sessConnected [] .failed 0).1.state] = false := by
  decide

end WyzeBridge
